import Mathlib

/-!
Verification of `src/utils.py` (NFL tracking-data trajectory extraction and
field rendering).

The tabular pandas data is embedded shallowly:

* a `DataFrame` of tracking data becomes a `Table`: a list of `Row`s plus
  boolean flags recording which optional columns are present in the schema
  (`PLAYER_NAME`, `BALL_LAND_X`, `BALL_LAND_Y`);
* a float that may be `NaN` becomes `Option ℚ` (`none` = missing/NaN);
* `pd.notna` becomes `Option.isSome`;
* `df.sort_values(FRAME_ID)` becomes an insertion sort on the frame id;
* `df.groupby(NFL_ID)` becomes grouping by the sorted list of distinct
  player ids (pandas groups with `sort=True`, ascending keys, and preserves
  the incoming row order inside each group);
* `series.iloc[0]` becomes a fallible head access returning `Except`,
  mirroring the `IndexError` pandas raises on an empty selection;
* a matplotlib rendering call becomes a pure function computing a record of
  the drawn elements (polylines, colors, labels, arrows, markers, title).
-/

/-- A coordinate value that may be missing (`none` models a float `NaN`). -/
abbrev Val : Type := Option ℚ

/-- An `(x, y)` pair as produced by `extract_points`; either component may be
missing. -/
abbrev Pt : Type := Val × Val

/-- One tracking row: one observation of one player at one frame of one play.
Field values of schema-optional columns are only meaningful when the owning
`Table` says the column is present. -/
structure Row where
  gameId : Int
  playId : Int
  frameId : Int
  nflId : Int
  name : Option String
  x : Val
  y : Val
  ballLandX : Val
  ballLandY : Val
deriving DecidableEq, Repr

/-- A tracking table: the rows plus schema information for the optional
columns (`PLAYER_NAME in df.columns`, `BALL_LAND_X in df.columns`,
`BALL_LAND_Y in df.columns`). -/
structure Table where
  hasName : Bool
  hasBallLandX : Bool
  hasBallLandY : Bool
  rows : List Row
deriving DecidableEq, Repr

/-- Comparison used by `play_df.sort_values(FRAME_ID)`: order rows by frame
identifier. -/
def frameLe (a b : Row) : Prop := a.frameId ≤ b.frameId

instance : DecidableRel frameLe := fun a b => inferInstanceAs (Decidable (a.frameId ≤ b.frameId))

instance : IsTotal Row frameLe := ⟨fun a b => Int.le_total a.frameId b.frameId⟩

instance : IsTrans Row frameLe := ⟨fun _ _ _ hab hbc => le_trans hab hbc⟩

/-- `series.iloc[0]`: the first element of a column, raising pandas'
`IndexError` when the selection is empty. -/
def ilock0 : List α → Except String α
  | [] => .error "single positional indexer is out-of-bounds"
  | a :: _ => .ok a

/-- `extract_points` (src/utils.py:15-31): `list(zip(play_group[X], play_group[Y]))` —
pair the `X` and `Y` column entries row by row, in row order, with no
filtering or validation. -/
def extract_points (play_group : List Row) : List Pt :=
  play_group.map (fun r => (r.x, r.y))

/-- The row selection `df[(df[GAME_ID] == game_id) & (df[PLAY_ID] == play_id)]`
(src/utils.py:58); keeps the table's row order. -/
def selectedRows (df : Table) (game_id play_id : Int) : List Row :=
  df.rows.filter (fun r => r.gameId == game_id && r.playId == play_id)

/-- The selection after `play_df.sort_values(FRAME_ID)` (src/utils.py:61). -/
def playRows (df : Table) (game_id play_id : Int) : List Row :=
  List.insertionSort frameLe (selectedRows df game_id play_id)

/-- The keys produced by `play_df.groupby(NFL_ID)`: the distinct player ids of
the selection, in ascending order (pandas groups with `sort=True`). -/
def groupKeys (l : List Row) : List Int :=
  List.insertionSort (· ≤ ·) (l.map Row.nflId).dedup

/-- `play_df.groupby(NFL_ID)` (src/utils.py:75): each ascending key paired with
its rows, which keep the incoming (frame-sorted) order. -/
def groupByNflId (l : List Row) : List (Int × List Row) :=
  (groupKeys l).map (fun k => (k, l.filter (fun r => r.nflId == k)))

/-- The loop body of src/utils.py:75-85: for each `(nfl_id, player_group)`
append the zipped points and a label — the first `PLAYER_NAME` entry when that
column exists (`player_group[PLAYER_NAME].iloc[0]`, which may itself be a
missing value), else the synthesized string `Player {nfl_id}`. -/
def buildEntries (df : Table) : List (Int × List Row) → Except String (List (List Pt) × List (Option String))
  | [] => .ok ([], [])
  | (nfl_id, player_group) :: rest => do
      let points := player_group.map (fun r => (r.x, r.y))
      let label ← if df.hasName then do
          let r ← ilock0 player_group
          pure r.name
        else pure (some ("Player " ++ toString nfl_id))
      let (ps, ls) ← buildEntries df rest
      pure (points :: ps, label :: ls)

/-- `get_player_points_array` (src/utils.py:34-87): filter to the play, sort by
frame, read the ball-landing pair from the first row when both landing columns
exist in the schema (`iloc[0]` raises on an empty selection), then group by
player id collecting per-player point lists and labels. -/
def get_player_points_array (df : Table) (game_id play_id : Int) :
    Except String (List (List Pt) × List (Option String) × Option (ℚ × ℚ)) := do
  let play_df := playRows df game_id play_id
  let ball_land ← if df.hasBallLandX && df.hasBallLandY then do
      let r ← ilock0 play_df
      let ball_x := r.ballLandX
      let ball_y := r.ballLandY
      if ball_x.isSome && ball_y.isSome then
        pure (some (ball_x.getD 0, ball_y.getD 0))
      else
        pure none
    else
      pure none
  let (points_array, labels) ← buildEntries df (groupByNflId play_df)
  pure (points_array, labels, ball_land)

/-- The fixed role set of `is_offensive_player` (src/utils.py:103). -/
def offensiveRoles : List String := ["Other Route Runner", "Passer", "Targeted Receiver"]

/-- `is_offensive_player` (src/utils.py:90-103):
`player_role.isin(['Other Route Runner', 'Passer', 'Targeted Receiver'])` —
elementwise membership; a missing value is in no string set, hence `false`. -/
def is_offensive_player (player_role : List (Option String)) : List Bool :=
  player_role.map (fun r => match r with
    | some s => decide (s ∈ offensiveRoles)
    | none => false)

/-- The `tab10` palette of `plt.cm.tab10`: a `ListedColormap` with exactly 10
entries (matplotlib's documented category-10 colors). -/
def tab10 : List String :=
  ["#1f77b4", "#ff7f0e", "#2ca02c", "#d62728", "#9467bd",
   "#8c564b", "#e377c2", "#7f7f7f", "#bcbd22", "#17becf"]

/-- `plt.cm.tab10(range(n))` (src/utils.py:157). A matplotlib `Colormap`
called on integer input uses the integers directly as lookup indices; an index
`≥ N` is sent to the colormap's over color, which — no over color being set on
`tab10` — defaults to the last palette entry. So entry `i` is
`tab10[min i 9]`: out-of-range indices saturate at the last color, they do not
wrap around. -/
def tab10OfRange (n : Nat) : List String :=
  (List.range n).map (fun i => tab10.getD (min i 9) "#000000")

/-- Float subtraction as used for the arrow displacement
(`x_coords[-1] - x_coords[-2]`): any operand that is `NaN` makes the result
`NaN`. -/
def osub (a b : Val) : Val :=
  match a, b with
  | some q, some r => some (q - r)
  | _, _ => none

/-- Python truthiness of an optional integer (`if game_id and play_id:`):
`None` and `0` are falsy. -/
def truthy : Option Int → Bool
  | some n => n != 0
  | none => false

/-- The title logic shared by both renderers (src/utils.py:189-191, 243-245):
the generic `base` unless both identifiers are supplied and truthy. -/
def mkTitle (base : String) (game_id play_id : Option Int) : String :=
  if truthy game_id && truthy play_id then
    "Game: " ++ toString (game_id.getD 0) ++ ", Play: " ++ toString (play_id.getD 0)
  else
    base

/-- The arrow drawn by `ax.arrow(x_coords[-2], y_coords[-2], dx, dy, ...)`
(src/utils.py:172-177): anchored at the second-to-last point, displaced by
last minus second-to-last, in the trajectory's color. -/
structure Arrow where
  anchorX : Val
  anchorY : Val
  dx : Val
  dy : Val
  color : String
deriving DecidableEq, Repr

/-- What the multi-trajectory renderer draws for one entry of `points_array`:
the polyline with its color and legend label, and the directional arrow when
the trajectory has at least 2 points. -/
structure TrajPlot where
  linePoints : List Pt
  color : String
  label : Option String
  arrow : Option Arrow
deriving DecidableEq, Repr

/-- The elements drawn by `plot_multiple_points` that depend on its inputs
(the static field background is a fixed draw sequence and carries no
information). -/
structure MultiPlot where
  trajs : List TrajPlot
  ballMarker : Option (ℚ × ℚ)
  title : String
deriving DecidableEq, Repr

/-- The loop body of src/utils.py:159-177, for one `enumerate(points_array)`
entry `(i, points)`: the label is `labels[i]` when `labels` is truthy
(non-`None`, non-empty) and `i` is in range, else the synthesized
`Player {i+1}`; the color is `colors[i]`; the arrow exists exactly when
`len(points) >= 2`, anchored at index `-2` with displacement index `-1` minus
index `-2`. -/
def plotTrajEntry (colors : List String) (labels : Option (List (Option String)))
    (ip : Nat × List Pt) : TrajPlot :=
  let i := ip.1
  let points := ip.2
  let x_coords := points.map Prod.fst
  let y_coords := points.map Prod.snd
  let label : Option String :=
    match labels with
    | some ls =>
        if ls.isEmpty then some ("Player " ++ toString (i + 1))
        else if i < ls.length then ls.getD i none
        else some ("Player " ++ toString (i + 1))
    | none => some ("Player " ++ toString (i + 1))
  let color := colors.getD i "#000000"
  let arrow : Option Arrow :=
    if 2 ≤ points.length then
      some { anchorX := x_coords.getD (x_coords.length - 2) none,
             anchorY := y_coords.getD (y_coords.length - 2) none,
             dx := osub (x_coords.getD (x_coords.length - 1) none)
                        (x_coords.getD (x_coords.length - 2) none),
             dy := osub (y_coords.getD (y_coords.length - 1) none)
                        (y_coords.getD (y_coords.length - 2) none),
             color := color }
    else none
  { linePoints := points, color := color, label := label, arrow := arrow }

/-- `plot_multiple_points` (src/utils.py:106-202), as the record of drawn
elements: one `TrajPlot` per `points_array` entry with
`colors = plt.cm.tab10(range(len(points_array)))`, the ball marker drawn iff
`ball_land is not None`, and the title from the truthiness rule. -/
def plot_multiple_points (points_array : List (List Pt)) (ball_land : Option (ℚ × ℚ))
    (game_id play_id : Option Int) (labels : Option (List (Option String))) : MultiPlot :=
  let colors := tab10OfRange points_array.length
  { trajs := points_array.enum.map (plotTrajEntry colors labels),
    ballMarker := ball_land,
    title := mkTitle "Player Trajectories" game_id play_id }

/-- Python list indexing `l[i]`, with negative indices counted from the end
and an `IndexError` out of range. -/
def pyGet (l : List α) (i : Int) : Except String α :=
  let j := if i < 0 then i + l.length else i
  if 0 ≤ j then
    match l.get? j.toNat with
    | some a => .ok a
    | none => .error "list index out of range"
  else .error "list index out of range"

/-- The elements drawn by `plot_single_trajectory` that depend on its inputs:
the polyline, the `Start` marker at point 0, the `End` marker at point -1, and
the title. -/
structure SinglePlot where
  line : List Pt
  startX : Val
  startY : Val
  endX : Val
  endY : Val
  title : String
deriving DecidableEq, Repr

/-- `plot_single_trajectory` (src/utils.py:205-252): split the points into
coordinate lists, draw the polyline, then mark `x_coords[0], y_coords[0]` as
`Start` and `x_coords[-1], y_coords[-1]` as `End`. There is no emptiness
check: on an empty trajectory the `[0]` access raises `IndexError`. -/
def plot_single_trajectory (points : List Pt) (game_id play_id : Option Int) :
    Except String SinglePlot := do
  let x_coords := points.map Prod.fst
  let y_coords := points.map Prod.snd
  let sx ← pyGet x_coords 0
  let sy ← pyGet y_coords 0
  let ex ← pyGet x_coords (-1)
  let ey ← pyGet y_coords (-1)
  pure { line := points, startX := sx, startY := sy, endX := ex, endY := ey,
         title := mkTitle "Player Trajectory" game_id play_id }

/-- The ascending distinct player ids of a play selection. -/
def keysOf (df : Table) (game_id play_id : Int) : List Int :=
  groupKeys (playRows df game_id play_id)

/-- One player's rows of a play selection, in frame-sorted order. -/
def rowsOfPlayer (df : Table) (game_id play_id k : Int) : List Row :=
  (playRows df game_id play_id).filter (fun r => r.nflId == k)

/-- The label the aggregator produces for a player with id `k` and group
`grp`: the first row's (possibly missing) name when the name column exists,
else the synthesized string. -/
def labelFun (df : Table) (k : Int) (grp : List Row) : Option String :=
  if df.hasName then grp.head?.bind Row.name
  else some ("Player " ++ toString k)

/-- The ball-landing value the aggregator produces when it does not raise:
present iff both landing columns exist in the schema and the first
frame-sorted selected row has both coordinates non-missing. -/
def ballSpec (df : Table) (game_id play_id : Int) : Option (ℚ × ℚ) :=
  if df.hasBallLandX && df.hasBallLandY then
    match (playRows df game_id play_id).head? with
    | some r =>
        if r.ballLandX.isSome && r.ballLandY.isSome then
          some (r.ballLandX.getD 0, r.ballLandY.getD 0)
        else none
    | none => none
  else none

/-- A row of the worked example of spec §8: game 100, play 7, landing columns
populated with `(60, 10)` on every row, no name column content. -/
def exRow (f id : Int) (x y : ℚ) : Row :=
  { gameId := 100, playId := 7, frameId := f, nflId := id, name := none,
    x := some x, y := some y, ballLandX := some 60, ballLandY := some 10 }

/-- The worked example of spec §8 (rows deliberately out of frame order, so
the frame sort is exercised): player 1 at frames 1..3, player 2 at frames
1..2, landing columns present. -/
def exTable : Table :=
  { hasName := false, hasBallLandX := true, hasBallLandY := true,
    rows := [exRow 2 1 12 21, exRow 1 2 50 25, exRow 1 1 10 20,
             exRow 2 2 48 26, exRow 3 1 14 22] }

/-- A row whose `PLAYER_NAME` value is missing (NaN) while the column itself
exists. -/
def nanNameRow : Row :=
  { gameId := 1, playId := 1, frameId := 1, nflId := 5, name := none,
    x := some 3, y := some 4, ballLandX := none, ballLandY := none }

/-- A table with the name column present but the value missing on the
player's first row. -/
def nanNameT : Table :=
  { hasName := true, hasBallLandX := false, hasBallLandY := false,
    rows := [nanNameRow] }

/-- First frame-ordered row of `landMissT`: landing `x` missing. -/
def landMissRow1 : Row :=
  { gameId := 1, playId := 1, frameId := 1, nflId := 9, name := none,
    x := some 1, y := some 2, ballLandX := none, ballLandY := some 10 }

/-- Second frame-ordered row of `landMissT`: both landing coordinates
valid. -/
def landMissRow2 : Row :=
  { gameId := 1, playId := 1, frameId := 2, nflId := 9, name := none,
    x := some 2, y := some 3, ballLandX := some 60, ballLandY := some 10 }

/-- Landing columns present, first selected row missing landing `x`, a later
row carrying valid values. -/
def landMissT : Table :=
  { hasName := false, hasBallLandX := true, hasBallLandY := true,
    rows := [landMissRow1, landMissRow2] }

theorem mem_groupKeys (l : List Row) (k : Int) :
    k ∈ groupKeys l ↔ k ∈ l.map Row.nflId := by
  unfold groupKeys
  rw [(List.perm_insertionSort _ _).mem_iff, List.mem_dedup]

theorem groupByNflId_snd_ne_nil (l : List Row) :
    ∀ x ∈ groupByNflId l, x.2 ≠ [] := by
  intro x hx
  obtain ⟨k, hk, rfl⟩ := List.mem_map.mp hx
  have hk' : k ∈ l.map Row.nflId := (mem_groupKeys l k).mp hk
  obtain ⟨r, hr, hrk⟩ := List.mem_map.mp hk'
  intro hnil
  have hnil' : l.filter (fun r => r.nflId == k) = [] := hnil
  have hmem : r ∈ l.filter (fun r => r.nflId == k) :=
    List.mem_filter.mpr ⟨hr, by simp [hrk]⟩
  rw [hnil'] at hmem
  exact absurd hmem (List.not_mem_nil r)

theorem buildEntries_ok (df : Table) (gs : List (Int × List Row))
    (h : ∀ x ∈ gs, x.2 ≠ []) :
    buildEntries df gs = .ok (gs.map (fun x => extract_points x.2),
                              gs.map (fun x => labelFun df x.1 x.2)) := by
  induction gs with
  | nil => rfl
  | cons hd rest ih =>
    obtain ⟨k, grp⟩ := hd
    have hgrp : grp ≠ [] := h (k, grp) (List.mem_cons_self _ _)
    have hrest := ih (fun x hx => h x (List.mem_cons_of_mem _ hx))
    cases grp with
    | nil => exact absurd rfl hgrp
    | cons a t =>
      cases hn : df.hasName with
      | true =>
        simp [buildEntries, hn, ilock0, hrest, labelFun, extract_points,
              Bind.bind, Except.bind, Pure.pure, Except.pure]
      | false =>
        simp [buildEntries, hn, ilock0, hrest, labelFun, extract_points,
              Bind.bind, Except.bind, Pure.pure, Except.pure]

/-- Characterization of `get_player_points_array` on the inputs where it does
not raise: whenever the frame-sorted selection is nonempty or the landing
columns are not both present, it returns, per ascending player id, the zipped
point lists and labels, together with `ballSpec`. -/
theorem gppa_ok_spec (df : Table) (g p : Int)
    (h : playRows df g p ≠ [] ∨ (df.hasBallLandX && df.hasBallLandY) = false) :
    get_player_points_array df g p =
      .ok ((keysOf df g p).map (fun k => extract_points (rowsOfPlayer df g p k)),
           (keysOf df g p).map (fun k => labelFun df k (rowsOfPlayer df g p k)),
           ballSpec df g p) := by
  have hbe := buildEntries_ok df (groupByNflId (playRows df g p))
    (groupByNflId_snd_ne_nil _)
  cases hb : (df.hasBallLandX && df.hasBallLandY) with
  | false =>
    simp only [get_player_points_array, hb, hbe]
    simp [groupByNflId, List.map_map, Function.comp, keysOf, rowsOfPlayer,
          ballSpec, hb, Bind.bind, Except.bind, Pure.pure, Except.pure]
  | true =>
    have hne : playRows df g p ≠ [] := by
      rcases h with h | h
      · exact h
      · rw [hb] at h; exact absurd h (by simp)
    cases hpr : playRows df g p with
    | nil => exact absurd hpr hne
    | cons r t =>
      rw [hpr] at hbe
      simp only [groupByNflId] at hbe
      simp only [get_player_points_array, ballSpec, keysOf, hb, hpr, hbe]
      cases hc : (r.ballLandX.isSome && r.ballLandY.isSome) with
      | true =>
        simp [hc, ilock0, hbe, rowsOfPlayer, hpr, groupByNflId,
              List.map_map, Function.comp,
              Bind.bind, Except.bind, Pure.pure, Except.pure]
      | false =>
        simp [hc, ilock0, hbe, rowsOfPlayer, hpr, groupByNflId,
              List.map_map, Function.comp,
              Bind.bind, Except.bind, Pure.pure, Except.pure]

/-- When both landing columns are in the schema and the play selection is
empty, the `iloc[0]` read raises. -/
theorem gppa_error_of_empty (df : Table) (g p : Int)
    (hb : (df.hasBallLandX && df.hasBallLandY) = true)
    (hnil : playRows df g p = []) :
    get_player_points_array df g p =
      .error "single positional indexer is out-of-bounds" := by
  simp [get_player_points_array, hb, hnil, ilock0,
        Bind.bind, Except.bind]

/-- Inversion: any successful run of the aggregator has the shape given by
`gppa_ok_spec`. -/
theorem gppa_ok_inv (df : Table) (g p : Int)
    (pa : List (List Pt)) (lb : List (Option String)) (ball : Option (ℚ × ℚ))
    (hok : get_player_points_array df g p = .ok (pa, lb, ball)) :
    pa = (keysOf df g p).map (fun k => extract_points (rowsOfPlayer df g p k)) ∧
    lb = (keysOf df g p).map (fun k => labelFun df k (rowsOfPlayer df g p k)) ∧
    ball = ballSpec df g p := by
  have hcond : playRows df g p ≠ [] ∨ (df.hasBallLandX && df.hasBallLandY) = false := by
    cases hb : (df.hasBallLandX && df.hasBallLandY) with
    | false => exact Or.inr rfl
    | true =>
      left
      intro hnil
      rw [gppa_error_of_empty df g p hb hnil] at hok
      exact absurd hok (by simp)
  have hchar := gppa_ok_spec df g p hcond
  rw [hok] at hchar
  have h3 := Except.ok.inj hchar
  simpa [Prod.ext_iff] using h3

/-- C1: the spec claims that a play selection matching zero rows yields
(empty, empty, absent) with no error *including when the landing-coordinate
columns are present in the schema*. The code violates the highlighted part:
with both landing columns present, `play_df[BALL_LAND_X].iloc[0]` is executed
on the empty selection and raises pandas' `IndexError`; only with the landing
columns absent does the aggregator return the empty outputs. -/
theorem c1_empty_selection_raises :
    get_player_points_array
      { hasName := false, hasBallLandX := true, hasBallLandY := true, rows := [] } 1 1
      = .error "single positional indexer is out-of-bounds" ∧
    get_player_points_array
      { hasName := false, hasBallLandX := false, hasBallLandY := false, rows := [] } 1 1
      = .ok ([], [], none) :=
  ⟨rfl, rfl⟩

/-- C2: the spec claims the single-trajectory renderer rejects an empty
trajectory explicitly. The code has no such check: on zero points the first
marker access `x_coords[0]` raises an unchecked `IndexError` (`list index out
of range`), which is exactly the fault the spec says must not surface. -/
theorem c2_empty_trajectory_index_fault :
    plot_single_trajectory ([] : List Pt) none none
      = .error "list index out of range" :=
  rfl

/-- C4: the Coordinate Extractor returns exactly `n` pairs for `n` input
rows, the `i`-th pair taken verbatim from the `i`-th row (missing values
propagate untouched), and the empty sequence for `n = 0`. -/
theorem c4_extract_points_pointwise (rows : List Row) :
    (extract_points rows).length = rows.length ∧
    (∀ i (h : i < rows.length),
      (extract_points rows).get? i = some ((rows.get ⟨i, h⟩).x, (rows.get ⟨i, h⟩).y)) ∧
    extract_points [] = [] := by
  refine ⟨by simp [extract_points], fun i h => ?_, rfl⟩
  rw [extract_points, List.get?_map, List.get?_eq_get h]
  rfl

/-- C4 witness: three concrete rows, evaluated at index 1. -/
theorem c4_witness :
    (extract_points [exRow 1 1 10 20, exRow 2 1 12 21, exRow 3 1 14 22]).length = 3 ∧
    (extract_points [exRow 1 1 10 20, exRow 2 1 12 21, exRow 3 1 14 22]).get? 1
      = some ((exRow 2 1 12 21).x, (exRow 2 1 12 21).y) :=
  ⟨(c4_extract_points_pointwise [exRow 1 1 10 20, exRow 2 1 12 21, exRow 3 1 14 22]).1,
   (c4_extract_points_pointwise [exRow 1 1 10 20, exRow 2 1 12 21, exRow 3 1 14 22]).2.1
     1 (by decide)⟩

/-- C7: the Role Filter is total, returns a mask of the same length, and its
`i`-th entry is `true` exactly when the `i`-th role is one of the three
offensive roles; a missing or unrecognized value gives `false`. -/
theorem c7_role_mask (roles : List (Option String)) :
    (is_offensive_player roles).length = roles.length ∧
    ∀ i (h : i < roles.length),
      ((is_offensive_player roles).get? i = some true ↔
        (roles.get ⟨i, h⟩ = some "Other Route Runner" ∨
         roles.get ⟨i, h⟩ = some "Passer" ∨
         roles.get ⟨i, h⟩ = some "Targeted Receiver")) := by
  refine ⟨by simp [is_offensive_player], fun i h => ?_⟩
  rw [is_offensive_player, List.get?_map, List.get?_eq_get h]
  cases hr : roles.get ⟨i, h⟩ with
  | none => simp [hr]
  | some s => simp [offensiveRoles]

/-- C7 witness: the spec §8 example mask, plus the characterization applied
at index 0 of that input. -/
theorem c7_witness :
    is_offensive_player [some "Passer", some "Blocker", some "Targeted Receiver", none]
      = [true, false, true, false] ∧
    ((is_offensive_player [some "Passer", some "Blocker", some "Targeted Receiver", none]).get? 0
        = some true ↔
      (([some "Passer", some "Blocker", some "Targeted Receiver", none].get
          (⟨0, by decide⟩ : Fin 4)) = some "Other Route Runner" ∨
       ([some "Passer", some "Blocker", some "Targeted Receiver", none].get
          (⟨0, by decide⟩ : Fin 4)) = some "Passer" ∨
       ([some "Passer", some "Blocker", some "Targeted Receiver", none].get
          (⟨0, by decide⟩ : Fin 4)) = some "Targeted Receiver")) :=
  ⟨rfl,
   (c7_role_mask [some "Passer", some "Blocker", some "Targeted Receiver", none]).2
     0 (by decide)⟩

/-- C3: for a selection matching at least one row (head row `r` after the
frame sort), the aggregator succeeds and its landing point is present iff
both landing columns exist in the schema and `r` has non-missing values for
both coordinates; when present it carries exactly those first-row values.
Rows after the first never contribute. -/
theorem c3_landing_point_iff (df : Table) (g p : Int) (r : Row)
    (hhd : (playRows df g p).head? = some r) :
    get_player_points_array df g p =
      .ok ((keysOf df g p).map (fun k => extract_points (rowsOfPlayer df g p k)),
           (keysOf df g p).map (fun k => labelFun df k (rowsOfPlayer df g p k)),
           ballSpec df g p) ∧
    ((ballSpec df g p).isSome = true ↔
      ((df.hasBallLandX && df.hasBallLandY) = true ∧
        r.ballLandX.isSome = true ∧ r.ballLandY.isSome = true)) ∧
    (∀ q, ballSpec df g p = some q → q = (r.ballLandX.getD 0, r.ballLandY.getD 0)) := by
  have hne : playRows df g p ≠ [] := by
    intro hnil
    rw [hnil] at hhd
    exact absurd hhd (by simp)
  refine ⟨gppa_ok_spec df g p (Or.inl hne), ?_, ?_⟩
  · rw [ballSpec, hhd]
    cases hb : (df.hasBallLandX && df.hasBallLandY) with
    | false => simp
    | true =>
      cases hx : r.ballLandX.isSome with
      | false => simp [hx]
      | true =>
        cases hy : r.ballLandY.isSome with
        | false => simp [hx, hy]
        | true => simp [hx, hy]
  · intro q hq
    rw [ballSpec, hhd] at hq
    cases hb : (df.hasBallLandX && df.hasBallLandY) with
    | false => simp [hb] at hq
    | true =>
      cases hc : (r.ballLandX.isSome && r.ballLandY.isSome) with
      | false => simp [hb, hc] at hq
      | true =>
        simp only [hb, if_true, reduceIte] at hq
        rw [if_pos hc] at hq
        exact (Option.some.inj hq).symm

/-- C3 witness: landing columns present, the first frame-ordered row has a
missing landing `x`, a later row carries valid values — the landing point is
absent. -/
theorem c3_witness :
    ballSpec landMissT 1 1 = none ∧
    ((ballSpec landMissT 1 1).isSome = true ↔
      ((landMissT.hasBallLandX && landMissT.hasBallLandY) = true ∧
        landMissRow1.ballLandX.isSome = true ∧ landMissRow1.ballLandY.isSome = true)) :=
  ⟨rfl, (c3_landing_point_iff landMissT 1 1 landMissRow1 rfl).2.1⟩

/-- C5: a successful aggregation has one trajectory and one label per
distinct player id of the selection; `labels[i]` and `trajectories[i]` are
both derived from the `i`-th key of `keysOf`, the distinct player ids in
strictly ascending order. -/
theorem c5_parallel_per_player (df : Table) (g p : Int)
    (pa : List (List Pt)) (lb : List (Option String)) (ball : Option (ℚ × ℚ))
    (hok : get_player_points_array df g p = .ok (pa, lb, ball)) :
    pa = (keysOf df g p).map (fun k => extract_points (rowsOfPlayer df g p k)) ∧
    lb = (keysOf df g p).map (fun k => labelFun df k (rowsOfPlayer df g p k)) ∧
    pa.length = ((selectedRows df g p).map Row.nflId).dedup.length ∧
    lb.length = ((selectedRows df g p).map Row.nflId).dedup.length ∧
    List.Sorted (· < ·) (keysOf df g p) ∧
    (∀ k : Int, k ∈ keysOf df g p ↔ k ∈ (selectedRows df g p).map Row.nflId) := by
  obtain ⟨hpa, hlb, _⟩ := gppa_ok_inv df g p pa lb ball hok
  have hperm : List.Perm ((playRows df g p).map Row.nflId) ((selectedRows df g p).map Row.nflId) :=
    (List.perm_insertionSort frameLe (selectedRows df g p)).map Row.nflId
  have hkeysperm : List.Perm (keysOf df g p) (((selectedRows df g p).map Row.nflId).dedup) :=
    (List.perm_insertionSort _ _).trans hperm.dedup
  have hsorted : List.Sorted (· ≤ ·) (keysOf df g p) :=
    List.sorted_insertionSort _ _
  have hnodup : (keysOf df g p).Nodup :=
    (List.perm_insertionSort _ _).symm.nodup (List.nodup_dedup _)
  refine ⟨hpa, hlb, ?_, ?_, hsorted.lt_of_le hnodup, ?_⟩
  · rw [hpa, List.length_map]
    exact hkeysperm.length_eq
  · rw [hlb, List.length_map]
    exact hkeysperm.length_eq
  · intro k
    rw [keysOf, mem_groupKeys]
    exact hperm.mem_iff

/-- C5 witness: the spec §8 example — two players, ascending ids, parallel
labels, applied via the theorem at the concrete aggregator output. -/
theorem c5_witness :
    [[((some 10 : Val), (some 20 : Val)), (some 12, some 21), (some 14, some 22)],
     [(some 50, some 25), (some 48, some 26)]]
      = (keysOf exTable 100 7).map (fun k => extract_points (rowsOfPlayer exTable 100 7 k)) ∧
    [some "Player 1", some "Player 2"]
      = (keysOf exTable 100 7).map (fun k => labelFun exTable k (rowsOfPlayer exTable 100 7 k)) ∧
    List.Sorted (· < ·) (keysOf exTable 100 7) := by
  have h := c5_parallel_per_player exTable 100 7
    [[(some 10, some 20), (some 12, some 21), (some 14, some 22)],
     [(some 50, some 25), (some 48, some 26)]]
    [some "Player 1", some "Player 2"] (some (60, 10)) rfl
  exact ⟨h.1, h.2.1, h.2.2.2.2.1⟩

/-- C6: each trajectory of a successful aggregation is the Coordinate
Extractor applied to that player's rows in frame-sorted order; that row list
is sorted by frame identifier and is a permutation of (exactly) the player's
matching rows — nothing is dropped, duplicated, or reordered beyond the frame
sort. -/
theorem c6_trajectory_frame_order (df : Table) (g p : Int)
    (pa : List (List Pt)) (lb : List (Option String)) (ball : Option (ℚ × ℚ))
    (hok : get_player_points_array df g p = .ok (pa, lb, ball)) :
    pa = (keysOf df g p).map (fun k => extract_points (rowsOfPlayer df g p k)) ∧
    ∀ k : Int,
      List.Sorted frameLe (rowsOfPlayer df g p k) ∧
      List.Perm (rowsOfPlayer df g p k)
        ((selectedRows df g p).filter (fun r => r.nflId == k)) := by
  obtain ⟨hpa, _, _⟩ := gppa_ok_inv df g p pa lb ball hok
  refine ⟨hpa, fun k => ⟨?_, ?_⟩⟩
  · exact (List.sorted_insertionSort frameLe (selectedRows df g p)).filter _
  · exact (List.perm_insertionSort frameLe (selectedRows df g p)).filter _

/-- C6 witness: in the spec §8 example, player 1's rows are frame-sorted and
are a permutation of that player's matching rows. -/
theorem c6_witness :
    [[((some 10 : Val), (some 20 : Val)), (some 12, some 21), (some 14, some 22)],
     [(some 50, some 25), (some 48, some 26)]]
      = (keysOf exTable 100 7).map (fun k => extract_points (rowsOfPlayer exTable 100 7 k)) ∧
    List.Sorted frameLe (rowsOfPlayer exTable 100 7 1) ∧
    List.Perm (rowsOfPlayer exTable 100 7 1)
      ((selectedRows exTable 100 7).filter (fun r => r.nflId == 1)) := by
  have h := c6_trajectory_frame_order exTable 100 7
    [[(some 10, some 20), (some 12, some 21), (some 14, some 22)],
     [(some 50, some 25), (some 48, some 26)]]
    [some "Player 1", some "Player 2"] (some (60, 10)) rfl
  exact ⟨h.1, h.2 1⟩

/-- C10: whenever the name column is present in the schema, every label of a
successful aggregation is the (possibly missing) name value of the player's
first frame-ordered row — a missing value becomes the label itself; the
synthesized `Player {id}` string arises exactly when the name column is
absent from the schema. -/
theorem c10_label_source (df : Table) (g p : Int)
    (pa : List (List Pt)) (lb : List (Option String)) (ball : Option (ℚ × ℚ))
    (hok : get_player_points_array df g p = .ok (pa, lb, ball)) :
    (df.hasName = true →
      lb = (keysOf df g p).map (fun k => (rowsOfPlayer df g p k).head?.bind Row.name)) ∧
    (df.hasName = false →
      lb = (keysOf df g p).map (fun k => some ("Player " ++ toString k))) := by
  obtain ⟨_, hlb, _⟩ := gppa_ok_inv df g p pa lb ball hok
  constructor
  · intro hn
    rw [hlb]
    simp [labelFun, hn]
  · intro hn
    rw [hlb]
    simp [labelFun, hn]

/-- C10 witness: name column present, the single row's name value missing —
the label is the missing value itself, not a synthesized string. -/
theorem c10_witness :
    [(none : Option String)]
      = (keysOf nanNameT 1 1).map (fun k => (rowsOfPlayer nanNameT 1 1 k).head?.bind Row.name) :=
  (c10_label_source nanNameT 1 1 [[(some 3, some 4)]] [none] none rfl).1 rfl

theorem getD_map_eq {α β : Type} (f : α → β) (l : List α) (j : Nat) (d : β)
    (hj : j < l.length) :
    (l.map f).getD j d = f (l.get ⟨j, hj⟩) := by
  simp [List.getD, List.get?_map, List.get?_eq_get hj, List.getElem?_eq_getElem hj]

theorem tab10OfRange_getD (n i : Nat) (h : i < n) :
    (tab10OfRange n).getD i "#000000" = tab10.getD (min i 9) "#000000" := by
  rw [tab10OfRange, getD_map_eq _ _ i _ (by simpa using h)]
  simp [List.get_range]

/-- The `i`-th drawn trajectory is the loop body applied to the `i`-th input
trajectory; nothing else feeds into it. -/
theorem trajs_get?_eq (pa : List (List Pt)) (ball : Option (ℚ × ℚ))
    (gid pid : Option Int) (labels : Option (List (Option String)))
    (i : Nat) (pts : List Pt) (hpts : pa.get? i = some pts) :
    (plot_multiple_points pa ball gid pid labels).trajs.get? i
      = some (plotTrajEntry (tab10OfRange pa.length) labels (i, pts)) := by
  rw [plot_multiple_points]
  simp only [List.get?_map, List.get?_enum, hpts, Option.map_some']

/-- C8 (amended): for every input — 11 or more trajectories included — the
per-index color assignment is defined for every trajectory index and does not
fail: one color per trajectory, with `color(i) = palette[min(i, 9)]`. The
extension beyond the 10-entry palette is saturating (every index from 10 on
receives the last palette entry), not the cyclic `palette[i mod 10]`
wraparound the claim suggests. -/
theorem c8_color_clip (pa : List (List Pt)) (ball : Option (ℚ × ℚ))
    (gid pid : Option Int) (labels : Option (List (Option String)))
    (i : Nat) (h : i < pa.length) :
    (plot_multiple_points pa ball gid pid labels).trajs.length = pa.length ∧
    ((plot_multiple_points pa ball gid pid labels).trajs.get? i).map TrajPlot.color
      = some (tab10.getD (min i 9) "#000000") := by
  constructor
  · simp [plot_multiple_points, List.enum_length]
  · rw [trajs_get?_eq pa ball gid pid labels i (pa.get ⟨i, h⟩) (List.get?_eq_get h)]
    rw [Option.map_some']
    show some ((tab10OfRange pa.length).getD i "#000000") = _
    rw [tab10OfRange_getD pa.length i h]

/-- C8 counterexample to the claim as stated: with 11 trajectories the code
assigns index 10 the clipped color `tab10[9] = "#17becf"`, whereas the
mod-wraparound assignment the claim describes would give
`tab10[10 mod 10] = tab10[0] = "#1f77b4"`; the two palette entries differ. -/
theorem c8_counterexample :
    ((plot_multiple_points (List.replicate 11 ([] : List Pt)) none none none none).trajs.get?
        10).map TrajPlot.color = some "#17becf" ∧
    tab10.get? (10 % 10) = some "#1f77b4" ∧
    ("#17becf" : String) ≠ "#1f77b4" :=
  ⟨rfl, rfl, by decide⟩

/-- C8 witness: the amended clipping law applied at 11 trajectories,
index 10. -/
theorem c8_witness :
    (plot_multiple_points (List.replicate 11 ([] : List Pt)) none none none none).trajs.length
      = (List.replicate 11 ([] : List Pt)).length ∧
    ((plot_multiple_points (List.replicate 11 ([] : List Pt)) none none none none).trajs.get?
        10).map TrajPlot.color = some (tab10.getD (min 10 9) "#000000") :=
  c8_color_clip (List.replicate 11 ([] : List Pt)) none none none none 10 (by decide)

/-- C9: per input trajectory `pts` at index `i`, the polyline is always drawn
from exactly `pts`; an arrow exists iff `pts` has at least 2 points; with
fewer than 2 points only the arrow is omitted; with 2 or more the arrow is
anchored at the second-to-last point, displaced by last minus second-to-last
(NaN-propagating subtraction), in the trajectory's own color. Each drawn
entry depends only on its own input trajectory, so no other trajectory is
affected. -/
theorem c9_arrow_iff (pa : List (List Pt)) (ball : Option (ℚ × ℚ))
    (gid pid : Option Int) (labels : Option (List (Option String)))
    (i : Nat) (pts : List Pt) (hpts : pa.get? i = some pts) :
    ((plot_multiple_points pa ball gid pid labels).trajs.get? i).map TrajPlot.linePoints
      = some pts ∧
    ((plot_multiple_points pa ball gid pid labels).trajs.get? i).map
        (fun t => t.arrow.isSome) = some (decide (2 ≤ pts.length)) ∧
    (pts.length < 2 →
      ((plot_multiple_points pa ball gid pid labels).trajs.get? i).map TrajPlot.arrow
        = some none) ∧
    (∀ h2 : 2 ≤ pts.length,
      ((plot_multiple_points pa ball gid pid labels).trajs.get? i).map TrajPlot.arrow
        = some (some
            { anchorX := (pts.get ⟨pts.length - 2, by omega⟩).1,
              anchorY := (pts.get ⟨pts.length - 2, by omega⟩).2,
              dx := osub (pts.get ⟨pts.length - 1, by omega⟩).1
                         (pts.get ⟨pts.length - 2, by omega⟩).1,
              dy := osub (pts.get ⟨pts.length - 1, by omega⟩).2
                         (pts.get ⟨pts.length - 2, by omega⟩).2,
              color := tab10.getD (min i 9) "#000000" })) := by
  have hi : i < pa.length := (List.get?_eq_some.mp hpts).1
  rw [trajs_get?_eq pa ball gid pid labels i pts hpts]
  refine ⟨rfl, ?_, ?_, ?_⟩
  · rw [Option.map_some']
    by_cases h2 : 2 ≤ pts.length
    · simp [plotTrajEntry, h2]
    · simp [plotTrajEntry, h2]
  · intro hlt
    rw [Option.map_some']
    simp [plotTrajEntry, Nat.not_le.mpr hlt]
  · intro h2
    rw [Option.map_some']
    have hxlen : (pts.map Prod.fst).length = pts.length := List.length_map _ _
    have hylen : (pts.map Prod.snd).length = pts.length := List.length_map _ _
    simp only [plotTrajEntry, if_pos h2, hxlen, hylen]
    rw [getD_map_eq Prod.fst pts (pts.length - 2) none (by omega),
        getD_map_eq Prod.snd pts (pts.length - 2) none (by omega),
        getD_map_eq Prod.fst pts (pts.length - 1) none (by omega),
        getD_map_eq Prod.snd pts (pts.length - 1) none (by omega)]
    rw [tab10OfRange_getD pa.length i hi]

/-- C9 witness: a three-point trajectory next to a one-point trajectory — the
first gets an arrow from `(12, 21)` to `(14, 22)`; evaluated at index 0. -/
theorem c9_witness :
    ((plot_multiple_points
        [[((some 10 : Val), (some 20 : Val)), (some 12, some 21), (some 14, some 22)],
         [(some 5, some 5)]] none none none none).trajs.get? 0).map TrajPlot.linePoints
      = some [((some 10 : Val), (some 20 : Val)), (some 12, some 21), (some 14, some 22)] ∧
    ((plot_multiple_points
        [[((some 10 : Val), (some 20 : Val)), (some 12, some 21), (some 14, some 22)],
         [(some 5, some 5)]] none none none none).trajs.get? 0).map
        (fun t => t.arrow.isSome)
      = some (decide (2 ≤ ([((some 10 : Val), (some 20 : Val)), (some 12, some 21),
          (some 14, some 22)] : List Pt).length)) := by
  have h := c9_arrow_iff
    [[((some 10 : Val), (some 20 : Val)), (some 12, some 21), (some 14, some 22)],
     [(some 5, some 5)]] none none none none 0
    [((some 10 : Val), (some 20 : Val)), (some 12, some 21), (some 14, some 22)] rfl
  exact ⟨h.1, h.2.1⟩
